import Mathlib

/-!
Shallow embedding of the DungeoGo connection/session subsystem
(`pkg/server`: `Client`, `SessionHandler`, `ConnectionManager`) and proofs
about its specification claims.

Conventions of the embedding:
* Go byte streams are lists of `Nat` (byte values); a read error is
  modelled as the input list running out.
* A Go pointer to a `Client` record is identified by the record's `id`
  (connection ids are freshly allocated, so the id is the pointer
  identity); the pointer store is a total function `String → Client`.
* Fallible external collaborators (player store, bcrypt, game engine)
  are oracles collected in an `Env` record; `none` / `false` models the
  Go error return.
* Each session handler returns the updated client record together with
  the ordered list of messages written to the transport.
-/

namespace DungeoGo

/-- The `ClientState` enumeration from `client.go` (second, current version). -/
inductive ClientState
  | connected
  | authenticating
  | creatingAccount
  | confirmingPassword
  | characterSelection
  | inGame
  | disconnecting
deriving DecidableEq

/-- The mutable fields of the `Client` record from `client.go` that the
session and registry logic reads and writes (transport handles, `lastActive`
and the lock are omitted: no claim mentions wall-clock time, and lock-free
sequential access models the code's serialized critical sections). -/
structure Client where
  id : String
  connected : Bool
  playerID : String
  characterID : String
  state : ClientState
  tempUsername : String
  tempPassword : String
  tempEmail : String
deriving DecidableEq

/-- `NewClient`: fresh record, connected, in state `StateConnected`. -/
def newClient (id : String) : Client :=
  { id := id
    connected := true
    playerID := ""
    characterID := ""
    state := .connected
    tempUsername := ""
    tempPassword := ""
    tempEmail := "" }

/-- `Client.Close`: idempotent; if still connected, clears the flag and
moves the state to `StateDisconnecting`. -/
def Client.close (c : Client) : Client :=
  if c.connected then { c with connected := false, state := .disconnecting } else c

@[simp] theorem Client.close_connected (c : Client) : c.close.connected = false := by
  unfold Client.close; split <;> simp_all

theorem Client.close_state (c : Client) (h : c.connected = true) :
    c.close.state = .disconnecting := by
  unfold Client.close; simp [h]

@[simp] theorem Client.close_of_closed (c : Client) (h : c.connected = false) :
    c.close = c := by
  unfold Client.close; simp [h]

@[simp] theorem Client.close_id (c : Client) : c.close.id = c.id := by
  unfold Client.close; split <;> rfl

@[simp] theorem Client.close_playerID (c : Client) : c.close.playerID = c.playerID := by
  unfold Client.close; split <;> rfl

/-- A message written to the transport: `Send` appends a line terminator,
`SendPrompt` does not. -/
inductive Msg
  | send (text : String)
  | prompt (text : String)
deriving DecidableEq

/-- Whitespace recognised by `strings.TrimSpace` (the ASCII space
characters plus the Latin-1 members of `unicode.IsSpace`). -/
def isSpaceChar (ch : Char) : Bool :=
  ch = ' ' || ch = '\t' || ch = '\n' || ch = '\x0b' || ch = '\x0c' || ch = '\r' ||
    ch.val = 0x85 || ch.val = 0xA0

/-- `strings.TrimSpace`: drop leading and trailing whitespace. -/
def trimSpace (s : String) : String :=
  String.mk (((s.data.dropWhile isSpaceChar).reverse.dropWhile isSpaceChar).reverse)

/-- `strings.Fields`: split on whitespace runs, keeping only the non-empty
pieces. -/
def fields (s : String) : List String :=
  (s.split (fun ch => isSpaceChar ch)).filter (fun p => p ≠ "")

/-! ### Password-mode reading (`Client.ReadPassword`) -/

/-- The IAC WILL ECHO sequence the server writes before reading a password. -/
def iacWillEcho : List Nat := [255, 251, 1]

/-- The IAC WONT ECHO sequence the server writes after reading a password
or before propagating a read error. -/
def iacWontEcho : List Nat := [255, 252, 1]

/-- The read loop of `Client.ReadPassword`, with the writes it performs
accumulated in order. `input` is the byte stream still to be read (running
out models a `ReadByte` error), `line` is the accumulated password and
`writes` the raw byte sequences written to the connection so far.  A 255
byte causes the two following bytes to be read and discarded; a newline
terminates; carriage returns are skipped; anything else is appended to the
password. On the error path the IAC WONT ECHO restore sequence is written
before the error is handed to the caller; on the success path the restore
sequence and a CRLF are written. -/
def readPasswordGo : List Nat → List Nat → List (List Nat) →
    List (List Nat) × Option (List Nat)
  | [], _line, writes => (writes ++ [iacWontEcho], none)
  | [255], _line, writes => (writes ++ [iacWontEcho], none)
  | [255, _a], _line, writes => (writes ++ [iacWontEcho], none)
  | 255 :: _a :: _b :: rest, line, writes => readPasswordGo rest line writes
  | 10 :: _rest, line, writes => (writes ++ [iacWontEcho, [13, 10]], some line)
  | 13 :: rest, line, writes => readPasswordGo rest line writes
  | char :: rest, line, writes => readPasswordGo rest (line ++ [char]) writes

/-- `Client.ReadPassword`: writes IAC WILL ECHO, then runs the read loop
with an empty accumulated password. -/
def readPassword (input : List Nat) : List (List Nat) × Option (List Nat) :=
  readPasswordGo input [] [iacWillEcho]

/-- A password-input stream is an interleaving of three-byte telnet control
sequences and single character bytes. -/
inductive PwTok
  | ctrl (a b : Nat)
  | ch (c : Nat)
deriving DecidableEq

/-- Wire encoding of one token: a control sequence is the 255 command byte
followed by its two argument bytes; a character is itself. -/
def encodeTok : PwTok → List Nat
  | .ctrl a b => [255, a, b]
  | .ch c => [c]

/-- Wire encoding of a token interleaving. -/
def encodeToks (ts : List PwTok) : List Nat :=
  (ts.map encodeTok).flatten

/-- The character bytes of an interleaving, in order. -/
def tokChars (ts : List PwTok) : List Nat :=
  ts.filterMap (fun t => match t with | .ch c => some c | .ctrl _ _ => none)

theorem readPasswordGo_nil (line : List Nat) (ws : List (List Nat)) :
    readPasswordGo [] line ws = (ws ++ [iacWontEcho], none) := rfl

theorem readPasswordGo_iac_nil (line : List Nat) (ws : List (List Nat)) :
    readPasswordGo [255] line ws = (ws ++ [iacWontEcho], none) := rfl

theorem readPasswordGo_iac_one (a : Nat) (line : List Nat) (ws : List (List Nat)) :
    readPasswordGo [255, a] line ws = (ws ++ [iacWontEcho], none) := rfl

theorem readPasswordGo_iac (a b : Nat) (rest line : List Nat) (ws : List (List Nat)) :
    readPasswordGo (255 :: a :: b :: rest) line ws = readPasswordGo rest line ws := rfl

theorem readPasswordGo_nl (rest line : List Nat) (ws : List (List Nat)) :
    readPasswordGo (10 :: rest) line ws = (ws ++ [iacWontEcho, [13, 10]], some line) := rfl

theorem readPasswordGo_cr (rest line : List Nat) (ws : List (List Nat)) :
    readPasswordGo (13 :: rest) line ws = readPasswordGo rest line ws := rfl

theorem readPasswordGo_chr (c : Nat) (rest line : List Nat) (ws : List (List Nat))
    (h255 : c ≠ 255) (h10 : c ≠ 10) (h13 : c ≠ 13) :
    readPasswordGo (c :: rest) line ws = readPasswordGo rest (line ++ [c]) ws := by
  rcases rest with - | ⟨r, rs⟩ <;>
    · rw [readPasswordGo.eq_def]
      simp [h255, h10, h13]

theorem encodeToks_cons (t : PwTok) (ts : List PwTok) :
    encodeToks (t :: ts) = encodeTok t ++ encodeToks ts := by
  simp [encodeToks]

theorem readPasswordGo_encode (ts : List PwTok) (extra line : List Nat)
    (ws : List (List Nat))
    (h : ∀ c, PwTok.ch c ∈ ts → c ≠ 255 ∧ c ≠ 10) :
    readPasswordGo (encodeToks ts ++ 10 :: extra) line ws =
      (ws ++ [iacWontEcho, [13, 10]],
       some (line ++ (tokChars ts).filter (fun c => c != 13))) := by
  induction ts generalizing line with
  | nil =>
    simp only [encodeToks, List.map_nil, List.flatten_nil, List.nil_append]
    rw [readPasswordGo_nl]
    simp [tokChars]
  | cons t rest ih =>
    have hrest : ∀ c, PwTok.ch c ∈ rest → c ≠ 255 ∧ c ≠ 10 := by
      intro c hc; exact h c (List.mem_cons_of_mem _ hc)
    cases t with
    | ctrl a b =>
      rw [encodeToks_cons]
      simp only [encodeTok, List.cons_append, List.nil_append]
      rw [readPasswordGo_iac, ih line hrest]
      simp [tokChars]
    | ch c =>
      have hc : c ≠ 255 ∧ c ≠ 10 := h c (List.mem_cons_self _ _)
      rw [encodeToks_cons]
      simp only [encodeTok, List.cons_append, List.nil_append]
      by_cases h13 : c = 13
      · subst h13
        rw [readPasswordGo_cr, ih line hrest]
        simp [tokChars]
      · rw [readPasswordGo_chr c _ _ _ hc.1 hc.2 h13, ih (line ++ [c]) hrest]
        simp [tokChars, List.filter_cons, h13]

/-- Read-loop error propagation always appends exactly the IAC WONT ECHO
restore sequence to the writes performed so far. -/
theorem readPasswordGo_error_writes :
    ∀ n input line ws, List.length input ≤ n →
      (readPasswordGo input line ws).2 = none →
      (readPasswordGo input line ws).1 = ws ++ [iacWontEcho] := by
  intro n
  induction n with
  | zero =>
    intro input line ws hlen _
    have : input = [] := List.eq_nil_of_length_eq_zero (Nat.le_zero.mp hlen)
    subst this
    rw [readPasswordGo_nil]
  | succ n ih =>
    intro input line ws hlen herr
    match input with
    | [] => rw [readPasswordGo_nil]
    | char :: rest =>
      by_cases h255 : char = 255
      · subst h255
        match rest with
        | [] => rw [readPasswordGo_iac_nil]
        | [a] => rw [readPasswordGo_iac_one]
        | a :: b :: rest2 =>
          rw [readPasswordGo_iac] at herr ⊢
          refine ih _ _ _ ?_ herr
          simp only [List.length_cons] at hlen
          omega
      · by_cases h10 : char = 10
        · subst h10
          rw [readPasswordGo_nl] at herr
          simp at herr
        · by_cases h13 : char = 13
          · subst h13
            rw [readPasswordGo_cr] at herr ⊢
            refine ih _ _ _ ?_ herr
            simp only [List.length_cons] at hlen
            omega
          · rw [readPasswordGo_chr _ _ _ _ h255 h10 h13] at herr ⊢
            refine ih _ _ _ ?_ herr
            simp only [List.length_cons] at hlen
            omega

/-- C5: for every input byte stream built as an interleaving of three-byte
telnet control sequences and character bytes followed by the terminating
newline, `ReadPassword` returns exactly the character bytes with every
carriage return discarded: no byte of any control sequence (neither the 255
command byte nor its two argument bytes) appears in the result, and bytes
after the first terminating newline are not read. -/
theorem readPassword_discards_control_sequences (ts : List PwTok) (extra : List Nat)
    (h : ∀ c, PwTok.ch c ∈ ts → c ≠ 255 ∧ c ≠ 10) :
    (readPassword (encodeToks ts ++ 10 :: extra)).2 =
      some ((tokChars ts).filter (fun c => c != 13)) := by
  unfold readPassword
  rw [readPasswordGo_encode ts extra [] [iacWillEcho] h]
  simp

theorem readPassword_discards_control_sequences_witness :
    (readPassword (encodeToks
        [PwTok.ctrl 253 1, PwTok.ch 97, PwTok.ch 13, PwTok.ctrl 251 10, PwTok.ch 98]
      ++ 10 :: [99])).2 = some [97, 98] :=
  (readPassword_discards_control_sequences
      [PwTok.ctrl 253 1, PwTok.ch 97, PwTok.ch 13, PwTok.ctrl 251 10, PwTok.ch 98]
      [99]
      (by intro c hc
          simp only [List.mem_cons, List.not_mem_nil, or_false] at hc
          rcases hc with h | h | h | h | h <;> cases h <;> decide)).trans (by decide)

/-- C6: whenever the `ReadPassword` read loop fails (the byte stream ends
before a terminating newline), the echo-restoring sequence 255 252 1 is
written to the connection after the echo-suppressing sequence and before
the error is returned: the write trace on every error path out of the read
loop is exactly IAC WILL ECHO followed by IAC WONT ECHO. -/
theorem readPassword_restores_echo_on_error (input : List Nat)
    (h : (readPassword input).2 = none) :
    (readPassword input).1 = [iacWillEcho, iacWontEcho] := by
  unfold readPassword at h ⊢
  have hw := readPasswordGo_error_writes input.length input [] [iacWillEcho] le_rfl h
  simpa using hw

theorem readPassword_restores_echo_on_error_witness :
    (readPassword [255, 251, 104]).2 = none ∧
      (readPassword [255, 251, 104]).1 = [iacWillEcho, iacWontEcho] :=
  ⟨by decide, readPassword_restores_echo_on_error [255, 251, 104] (by decide)⟩

/-! ### Connection registry (`ConnectionManager`) -/

/-- Association-list lookup for the `playerClients` map. -/
def lookupA (l : List (String × String)) (k : String) : Option String :=
  match l with
  | [] => none
  | (k2, v) :: rest => if k2 = k then some v else lookupA rest k

/-- Go map assignment `m[k] = v`: at most one entry per key afterwards. -/
def insertA (l : List (String × String)) (k v : String) : List (String × String) :=
  (k, v) :: l.filter (fun kv => kv.1 != k)

/-- Go map deletion `delete(m, k)`. -/
def eraseA (l : List (String × String)) (k : String) : List (String × String) :=
  l.filter (fun kv => kv.1 != k)

/-- Pointwise update of the pointer store at one client id. -/
def updHeap (h : String → Client) (cid : String) (f : Client → Client) :
    String → Client :=
  fun x => if x = cid then f (h x) else h x

/-- The `ConnectionManager` state: the pointer store for all `Client`
records, the key set of the `clients` map (connection id → record; the key
always equals the record's own id), the `playerClients` map (player id →
connection id of the pointed-to record) and the configured `maxClients`
bound.  The listener, handler, `running` flag and idle timeout are omitted:
no claim depends on them. -/
structure CMState where
  heap : String → Client
  clients : List String
  playerClients : List (String × String)
  maxClients : Nat

/-- `NewConnectionManager`: empty maps. -/
def newConnectionManager (maxClients : Nat) : CMState :=
  { heap := fun i => newClient i
    clients := []
    playerClients := []
    maxClients := maxClients }

/-- `createClient`: allocate the record and insert it into the `clients`
map under its own id. -/
def createClient (s : CMState) (cid : String) : CMState :=
  { s with
    heap := updHeap s.heap cid (fun _ => newClient cid)
    clients := if cid ∈ s.clients then s.clients else cid :: s.clients }

/-- The accept-loop body of `Start` for one inbound connection: if the
current client count has reached `maxClients`, write the capacity message
and close without registering; otherwise register a fresh record.  The
second component is the message written to the raw rejected connection. -/
def acceptConn (s : CMState) (cid : String) : CMState × Option String :=
  if s.clients.length ≥ s.maxClients then
    (s, some "Server is full. Please try again later.")
  else
    (createClient s cid, none)

/-- `RemoveClient`: if the id is registered, delete the `playerClients`
entry under the record's player id when that id is non-empty, close the
record and delete it from the `clients` map; otherwise do nothing. -/
def removeClient (s : CMState) (cid : String) : CMState :=
  if cid ∈ s.clients then
    { s with
      playerClients :=
        if (s.heap cid).playerID ≠ "" then eraseA s.playerClients (s.heap cid).playerID
        else s.playerClients
      heap := updHeap s.heap cid Client.close
      clients := s.clients.filter (fun x => x != cid) }
  else s

/-- `RegisterPlayerClient`: close any record currently mapped under this
player id, then install the new mapping and set the record's player id. -/
def registerPlayerClient (s : CMState) (playerID cid : String) : CMState :=
  let s1 :=
    match lookupA s.playerClients playerID with
    | some oldCid => { s with heap := updHeap s.heap oldCid Client.close }
    | none => s
  { s1 with
    playerClients := insertA s1.playerClients playerID cid
    heap := updHeap s1.heap cid (fun c => { c with playerID := playerID }) }

/-- One registry-mutating event: an inbound connection reaching the accept
loop (with the id the acceptor would allocate for it), a `RemoveClient`
call, or a `RegisterPlayerClient` call. -/
inductive CMEvent
  | accept (cid : String)
  | remove (cid : String)
  | register (pid cid : String)

/-- Apply one event to the registry state. -/
def cmStep (s : CMState) (e : CMEvent) : CMState :=
  match e with
  | .accept cid => (acceptConn s cid).1
  | .remove cid => removeClient s cid
  | .register pid cid => registerPlayerClient s pid cid

/-- Run a sequence of registry events from a starting state. -/
def cmRun (s : CMState) (es : List CMEvent) : CMState :=
  es.foldl cmStep s

theorem lookupA_insertA (l : List (String × String)) (k v : String) :
    lookupA (insertA l k v) k = some v := by
  unfold insertA lookupA
  simp

theorem mem_insertA_key (l : List (String × String)) (k v : String)
    (e : String × String) (he : e ∈ insertA l k v) (hk : e.1 = k) : e.2 = v := by
  unfold insertA at he
  rcases List.mem_cons.mp he with h | h
  · rw [h]
  · have hne := List.of_mem_filter h
    simp [hk] at hne

theorem removeClient_not_mem (s : CMState) (cid : String) (h : cid ∉ s.clients) :
    removeClient s cid = s := by
  unfold removeClient
  rw [if_neg h]

/-- C1: registering a connection for a player id that already has a record
`c0` in the player-id map closes `c0` (its connected flag becomes false),
installs the new record as the entry for that player id — the unique such
entry — and sets the new record's `playerID` field, so at most one
registered connection per player id survives the call. -/
theorem registerPlayerClient_single_connection (s : CMState) (P cid oldCid : String)
    (h : lookupA s.playerClients P = some oldCid) :
    ((registerPlayerClient s P cid).heap oldCid).connected = false ∧
    lookupA (registerPlayerClient s P cid).playerClients P = some cid ∧
    (∀ e ∈ (registerPlayerClient s P cid).playerClients, e.1 = P → e.2 = cid) ∧
    ((registerPlayerClient s P cid).heap cid).playerID = P := by
  unfold registerPlayerClient
  rw [h]
  refine ⟨?_, ?_, ?_, ?_⟩
  · unfold updHeap
    by_cases hc : oldCid = cid <;> simp [hc]
  · exact lookupA_insertA _ _ _
  · intro e he hk
    exact mem_insertA_key _ _ _ e he hk
  · simp [updHeap]

/-- Concrete registry state for the C1 witness: player `P` is currently
mapped to the connected record `A`. -/
def exRegState : CMState :=
  { heap := fun i => { newClient i with playerID := if i = "A" then "P" else "" }
    clients := ["A"]
    playerClients := [("P", "A")]
    maxClients := 10 }

theorem registerPlayerClient_single_connection_witness :
    ((registerPlayerClient exRegState "P" "B").heap "A").connected = false ∧
    lookupA (registerPlayerClient exRegState "P" "B").playerClients "P" = some "B" ∧
    (∀ e ∈ (registerPlayerClient exRegState "P" "B").playerClients,
      e.1 = "P" → e.2 = "B") ∧
    ((registerPlayerClient exRegState "P" "B").heap "B").playerID = "P" :=
  registerPlayerClient_single_connection exRegState "P" "B" "A" (by decide)

/-- Concrete registry state refuting C2 as stated: record `A` carries
player id `P` but the player-id map entry for `P` points at the newer
record `B`. -/
def exRemState : CMState :=
  { heap := fun i =>
      if i = "A" then
        { newClient "A" with playerID := "P", connected := false, state := .disconnecting }
      else if i = "B" then { newClient "B" with playerID := "P" }
      else newClient i
    clients := ["A", "B"]
    playerClients := [("P", "B")]
    maxClients := 10 }

/-- C2 counterexample: `RemoveClient` deletes the player-id map entry under
the removed record's player id unconditionally.  Here the entry for `P`
points at the different, newer record `B`, yet removing `A` still clears
it — the claim that such an entry is left untouched is false. -/
theorem removeClient_clears_entry_of_other_record :
    lookupA exRemState.playerClients "P" = some "B" ∧
    (exRemState.heap "A").playerID = "P" ∧
    lookupA (removeClient exRemState "A").playerClients "P" = none := by
  decide

/-- C2 amended: `RemoveClient` removes the record from the connection-id
map, clears the player-id map entry under the record's player id whenever
that id is non-empty — even when the entry points at a different, newer
record — closes the record, and is idempotent. -/
theorem removeClient_removes_and_closes (s : CMState) (cid : String)
    (h : cid ∈ s.clients) :
    cid ∉ (removeClient s cid).clients ∧
    ((removeClient s cid).heap cid).connected = false ∧
    (removeClient s cid).playerClients =
      (if (s.heap cid).playerID ≠ "" then eraseA s.playerClients (s.heap cid).playerID
       else s.playerClients) ∧
    removeClient (removeClient s cid) cid = removeClient s cid := by
  have hcl : (removeClient s cid).clients = s.clients.filter (fun x => x != cid) := by
    unfold removeClient
    rw [if_pos h]
  have hnm : cid ∉ (removeClient s cid).clients := by
    rw [hcl]
    simp [List.mem_filter]
  refine ⟨hnm, ?_, ?_, removeClient_not_mem _ _ hnm⟩
  · unfold removeClient
    rw [if_pos h]
    simp [updHeap]
  · unfold removeClient
    rw [if_pos h]

theorem removeClient_removes_and_closes_witness :
    "A" ∉ (removeClient exRemState "A").clients ∧
    ((removeClient exRemState "A").heap "A").connected = false ∧
    (removeClient exRemState "A").playerClients =
      (if (exRemState.heap "A").playerID ≠ "" then
        eraseA exRemState.playerClients (exRemState.heap "A").playerID
       else exRemState.playerClients) ∧
    removeClient (removeClient exRemState "A") "A" = removeClient exRemState "A" :=
  removeClient_removes_and_closes exRemState "A" (by decide)

theorem cmStep_maxClients (s : CMState) (e : CMEvent) :
    (cmStep s e).maxClients = s.maxClients := by
  cases e with
  | accept cid =>
    simp only [cmStep, acceptConn]
    split <;> rfl
  | remove cid =>
    simp only [cmStep, removeClient]
    split <;> rfl
  | register pid cid =>
    simp only [cmStep, registerPlayerClient]
    cases lookupA s.playerClients pid <;> rfl

theorem registerPlayerClient_clients (s : CMState) (pid cid : String) :
    (registerPlayerClient s pid cid).clients = s.clients := by
  unfold registerPlayerClient
  cases lookupA s.playerClients pid <;> rfl

theorem cmStep_bound (s : CMState) (e : CMEvent)
    (h : s.clients.length ≤ s.maxClients) :
    (cmStep s e).clients.length ≤ (cmStep s e).maxClients := by
  rw [cmStep_maxClients]
  cases e with
  | accept cid =>
    simp only [cmStep, acceptConn]
    by_cases hfull : s.clients.length ≥ s.maxClients
    · rw [if_pos hfull]
      exact h
    · rw [if_neg hfull]
      simp only [createClient]
      by_cases hmem : cid ∈ s.clients
      · simpa [hmem] using h
      · simp only [hmem, if_false, List.length_cons]
        omega
  | remove cid =>
    simp only [cmStep, removeClient]
    split
    · exact le_trans (List.length_filter_le _ _) h
    · exact h
  | register pid cid =>
    simp only [cmStep]
    rw [registerPlayerClient_clients]
    exact h

theorem cmRun_maxClients (s : CMState) (es : List CMEvent) :
    (cmRun s es).maxClients = s.maxClients := by
  induction es generalizing s with
  | nil => rfl
  | cons e rest ih =>
    unfold cmRun at ih ⊢
    rw [List.foldl_cons, ih, cmStep_maxClients]

theorem cmRun_bound (s : CMState) (es : List CMEvent)
    (h : s.clients.length ≤ s.maxClients) :
    (cmRun s es).clients.length ≤ (cmRun s es).maxClients := by
  induction es generalizing s with
  | nil => exact h
  | cons e rest ih =>
    unfold cmRun at ih ⊢
    rw [List.foldl_cons]
    exact ih _ (cmStep_bound s e h)

/-- C7: starting from a fresh registry, no sequence of accepts, removals
and player registrations ever makes the connection-id map exceed
`maxClients`; and whenever the count has reached the bound, an accepted
connection gets the capacity message and the registry is left unchanged
(the connection is never added). -/
theorem acceptor_never_exceeds_max (maxC : Nat) (es : List CMEvent) :
    (cmRun (newConnectionManager maxC) es).clients.length ≤ maxC ∧
    (∀ s cid, s.clients.length ≥ s.maxClients →
      acceptConn s cid = (s, some "Server is full. Please try again later.")) := by
  constructor
  · have hb := cmRun_bound (newConnectionManager maxC) es
      (by simp [newConnectionManager])
    rwa [cmRun_maxClients] at hb
  · intro s cid hfull
    unfold acceptConn
    rw [if_pos hfull]

/-- Concrete registry state at capacity for the C7 witness. -/
def exFullState : CMState :=
  { heap := fun i => newClient i
    clients := ["A"]
    playerClients := []
    maxClients := 1 }

theorem acceptor_never_exceeds_max_witness :
    (cmRun (newConnectionManager 1)
      [CMEvent.accept "a", CMEvent.accept "b"]).clients.length ≤ 1 ∧
    acceptConn exFullState "c" = (exFullState, some "Server is full. Please try again later.") := by
  obtain ⟨h1, h2⟩ := acceptor_never_exceeds_max 1 [CMEvent.accept "a", CMEvent.accept "b"]
  exact ⟨h1, h2 exFullState "c" (by decide)⟩

/-! ### Session protocol driver (`SessionHandler`) -/

/-- A row of the player store (`pkg/game/player.Player` restricted to the
fields the session driver reads; `active` is `IsActive()`). -/
structure PlayerRec where
  id : String
  username : String
  email : String
  passwordHash : String
  active : Bool
deriving DecidableEq

/-- A character summary as returned by the character store. -/
structure CharSum where
  id : String
  name : String
  raceLabel : String
  classLabel : String
  level : Nat
  isAlive : Bool
  lastPlayed : String
deriving DecidableEq

/-- The external collaborators of the session driver (player store,
character store, bcrypt, race/class validators, game engine), as oracles.
`none` or `false` models the Go error return of the corresponding call. -/
structure Env where
  getPlayerByUsername : String → Option PlayerRec
  getPlayer : String → Option PlayerRec
  getPlayerByEmail : String → Option PlayerRec
  createPlayerOk : PlayerRec → Bool
  bcryptHash : String → Option String
  bcryptVerify : String → String → Bool
  newPlayer : String → String → String → PlayerRec
  getCharactersByPlayer : String → Option (List CharSum)
  raceByID : String → Option String
  classByID : String → Option String
  createCharacterOk : String → String → String → String → Bool
  processCommand : String → String → Except String (List String)

/-- Character class of the email regex `[a-zA-Z0-9._%+-]`. -/
def isEmailLocalChar (ch : Char) : Bool :=
  ch.isAlphanum || ch = '.' || ch = '_' || ch = '%' || ch = '+' || ch = '-'

/-- Character class of the email regex `[a-zA-Z0-9.-]`. -/
def isEmailDomainChar (ch : Char) : Bool :=
  ch.isAlphanum || ch = '.' || ch = '-'

/-- The anchored email regex of `handleAccountCreation`:
one or more local characters, `@`, one or more domain characters, a dot,
and a top-level label of at least two letters.  Since `@` is in no
character class the string must contain exactly one `@`, and since the
top-level label admits no dot the splitting dot is the last dot after the
`@`. -/
def validEmail (s : String) : Bool :=
  match s.splitOn "@" with
  | [lpart, dompart] =>
    match (dompart.splitOn ".").reverse with
    | tld :: revSegs =>
      lpart != "" && lpart.all isEmailLocalChar &&
      revSegs != [] && String.intercalate "." revSegs.reverse != "" &&
      revSegs.all (fun seg => seg.all isEmailDomainChar) &&
      decide (2 ≤ tld.length) && tld.all (fun ch => ch.isAlpha)
    | [] => false
  | _ => false

/-- The messages of `showCharacterMenu`. -/
def characterMenuMsgs : List Msg :=
  [ .send "\n--- Character Selection ---"
  , .send "Commands:"
  , .send "  list (l)                 - List your characters"
  , .send "  select (s) <name>        - Enter game with character"
  , .send "  create (c) <name> <race> <class> - Create new character"
  , .send "  delete (d) <name>        - Delete character"
  , .send "  quit (q)                 - Disconnect"
  , .send ""
  , .prompt "Character> " ]

/-- `handleLogin` (state `Connected`): empty username re-prompts; a failed
username lookup is treated as a new player and starts account creation; a
suspended account is told so and closed; otherwise move to password entry,
remembering the player id. -/
def handleLogin (env : Env) (c : Client) (input : String) : Client × List Msg :=
  let username := trimSpace input
  if username = "" then
    (c, [.send "Username cannot be empty. Please enter your username:", .prompt "> "])
  else
    match env.getPlayerByUsername username with
    | none =>
      ({ c with tempUsername := username, state := .creatingAccount },
       [.send ("New player! Creating account for: " ++ username),
        .send "Please enter your email address:",
        .prompt "Email: "])
    | some p =>
      if p.active then
        ({ c with state := .authenticating, playerID := p.id },
         [.send "Please enter your password:"])
      else
        (c.close,
         [.send "Your account has been suspended. Please contact an administrator."])

/-- `handlePasswordAuth` (state `Authenticating`).  The store side effect
`UpdatePlayerLogin` on success is not observable in any claim and is
omitted. -/
def handlePasswordAuth (env : Env) (c : Client) (input : String) : Client × List Msg :=
  let password := trimSpace input
  if password = "" then
    (c, [.send "Password cannot be empty. Please enter your password:", .prompt "Password: "])
  else if c.playerID = "" then
    (c.close, [.send "Account creation not fully implemented yet."])
  else
    match env.getPlayer c.playerID with
    | none => (c.close, [.send "Authentication failed."])
    | some p =>
      if env.bcryptVerify p.passwordHash password then
        ({ c with state := .characterSelection },
         [.send ("Welcome back, " ++ p.username ++ "!")] ++ characterMenuMsgs)
      else
        (c.close, [.send "Invalid password."])

/-- `handleAccountCreation` (state `CreatingAccount`): validate the email,
close if it is already registered, otherwise store it and move on to the
password step. -/
def handleAccountCreation (env : Env) (c : Client) (input : String) : Client × List Msg :=
  let inp := trimSpace input
  if inp = "" then
    (c, [.send "Email cannot be empty. Please enter your email address:", .prompt "Email: "])
  else if !(validEmail inp) then
    (c, [.send "Invalid email format. Please enter a valid email address:", .prompt "Email: "])
  else
    match env.getPlayerByEmail inp with
    | some _ =>
      (c.close,
       [.send "An account with this email already exists.",
        .send "Please try logging in or use a different email address."])
    | none =>
      ({ c with tempEmail := inp, state := .confirmingPassword },
       [.send "Please choose a password (minimum 6 characters):"])

/-- `createAccount`: hash the pending password, persist the new player;
on success clear the temp fields, set the player id and enter character
selection; on either failure send a generic line and close. -/
def createAccount (env : Env) (c : Client) : Client × List Msg :=
  match env.bcryptHash c.tempPassword with
  | none => (c.close, [.send "Failed to create account due to internal error."])
  | some passwordHash =>
    let p := env.newPlayer c.tempUsername c.tempEmail passwordHash
    if env.createPlayerOk p then
      ({ c with
          tempUsername := "", tempPassword := "", tempEmail := ""
          playerID := p.id, state := .characterSelection },
       [.send ("Account created successfully! Welcome to DungeoGo, " ++ c.tempUsername ++ "!")]
         ++ characterMenuMsgs)
    else
      (c.close, [.send "Failed to create account. Username might already be taken."])

/-- `handlePasswordConfirmation` (state `ConfirmingPassword`): first entry
is length-checked and stored as pending; a second entry matching the
pending password creates the account, a mismatch clears the pending
password and restarts the password step. -/
def handlePasswordConfirmation (env : Env) (c : Client) (input : String) : Client × List Msg :=
  let password := trimSpace input
  if c.tempPassword = "" then
    if password.utf8ByteSize < 6 then
      (c, [.send "Password must be at least 6 characters long.",
           .send "Please choose a password (minimum 6 characters):"])
    else
      ({ c with tempPassword := password }, [.send "Please confirm your password:"])
  else
    if c.tempPassword ≠ password then
      ({ c with tempPassword := "" },
       [.send "Passwords do not match.",
        .send "Please choose a password (minimum 6 characters):"])
    else
      createAccount env c

/-- Left-justified padding of `fmt.Sprintf` verbs like `%-14s`. -/
def padR (s : String) (n : Nat) : String :=
  s ++ String.mk (List.replicate (n - s.length) ' ')

/-- One row of the `listCharacters` table. -/
def charRow (ch : CharSum) : String :=
  padR ch.name 14 ++ " " ++ padR ch.raceLabel 9 ++ " " ++ padR ch.classLabel 9 ++ " " ++
    padR (toString ch.level) 6 ++ " " ++
    padR (if ch.isAlive then "Alive" else "Dead") 9 ++ " " ++ ch.lastPlayed

/-- `listCharacters`. -/
def listCharacters (env : Env) (c : Client) : Client × List Msg :=
  match env.getCharactersByPlayer c.playerID with
  | none => (c, [.send "Error retrieving characters."])
  | some [] =>
    (c, [.send "You have no characters. Use 'create <name> <race> <class>' to create one."])
  | some chars =>
    (c,
     [.send "\nYour Characters:",
      .send "Name           Race      Class     Level  Status    Last Played",
      .send "--------------------------------------------------------------"] ++
     chars.map (fun ch => Msg.send (charRow ch)) ++ [.send ""])

/-- `strings.EqualFold`, modelled as case-insensitive comparison. -/
def eqFold (a b : String) : Bool :=
  a.toLower == b.toLower

/-- `selectCharacter`. -/
def selectCharacter (env : Env) (c : Client) (name : String) : Client × List Msg :=
  match env.getCharactersByPlayer c.playerID with
  | none => (c, [.send "Error retrieving characters."])
  | some chars =>
    match chars.find? (fun ch => eqFold ch.name name) with
    | some ch =>
      ({ c with characterID := ch.id, state := .inGame },
       [.send ("Welcome, " ++ ch.name ++ "!"),
        .send "You enter the game world...",
        .prompt "> "])
    | none => (c, [.send ("Character '" ++ name ++ "' not found.")])

/-- `createCharacter` of the session driver (race/class validation and the
store call are the oracles). -/
def createCharacter (env : Env) (c : Client) (name raceStr classStr : String) :
    Client × List Msg :=
  match env.raceByID raceStr.toLower with
  | none =>
    (c, [.send ("Invalid race: " ++ raceStr), .send "Available races: human, elf, dwarf"])
  | some race =>
    match env.classByID classStr.toLower with
    | none =>
      (c, [.send ("Invalid class: " ++ classStr),
           .send "Available classes: warrior, mage, rogue"])
    | some cls =>
      if env.createCharacterOk c.playerID name race cls then
        (c, [.send ("Character '" ++ name ++ "' created successfully!")])
      else
        (c, [.send "Error creating character. Name might already be taken."])

/-- `deleteCharacter` (stubbed in the source). -/
def deleteCharacter (_env : Env) (c : Client) (_name : String) : Client × List Msg :=
  (c, [.send "Character deletion not implemented yet."])

/-- `handleCharacterSelection` (state `CharacterSelection`): verb dispatch,
then a trailing prompt whenever the state is still `CharacterSelection`. -/
def handleCharacterSelection (env : Env) (c : Client) (input : String) :
    Client × List Msg :=
  match fields (trimSpace input) with
  | [] => (c, characterMenuMsgs)
  | cmd :: args =>
    let r :=
      match cmd.toLower with
      | "list" | "l" => listCharacters env c
      | "select" | "s" =>
        match args with
        | [] => (c, [Msg.send "Usage: select <character_name>"])
        | name :: _ => selectCharacter env c name
      | "create" | "c" =>
        match args with
        | name :: race :: cls :: _ => createCharacter env c name race cls
        | _ => (c, [Msg.send "Usage: create <name> <race> <class>"])
      | "delete" | "d" =>
        match args with
        | [] => (c, [Msg.send "Usage: delete <character_name>"])
        | name :: _ => deleteCharacter env c name
      | "quit" | "q" => (c.close, [Msg.send "Goodbye!"])
      | _ => (c, [Msg.send "Unknown command. Type 'list' to see your characters."])
    if r.1.state = .characterSelection then (r.1, r.2 ++ [Msg.prompt "Character> "]) else r

/-- `handleGameCommand` (state `InGame`): forward to the game engine; an
engine error is surfaced as one line and the state stays `InGame`. -/
def handleGameCommand (env : Env) (c : Client) (input : String) : Client × List Msg :=
  if c.characterID = "" then
    ({ c with state := .characterSelection },
     [.send "Error: No character selected."] ++ characterMenuMsgs)
  else
    match env.processCommand c.characterID input with
    | .error e => (c, [.send ("Error: " ++ e), .prompt "> "])
    | .ok responses => (c, responses.map Msg.send ++ [.prompt "> "])

/-- The state-keyed switch of `HandleClient`.  `Disconnecting` has no case
in the source switch, so nothing happens there. -/
def dispatch (env : Env) (c : Client) (line : String) : Client × List Msg :=
  match c.state with
  | .connected => handleLogin env c line
  | .authenticating => handlePasswordAuth env c line
  | .creatingAccount => handleAccountCreation env c line
  | .confirmingPassword => handlePasswordConfirmation env c line
  | .characterSelection => handleCharacterSelection env c line
  | .inGame => handleGameCommand env c line
  | .disconnecting => (c, [])

/-- The read loop of `HandleClient`: while the client is connected, read a
line (password-mode reads are abstracted as already-decoded lines; input
exhaustion models a read error, which breaks the loop) and dispatch on the
state; the deferred `client.Close()` runs on loop exit.  The fuel argument
only bounds the modelled execution.  Returns the final client, the input
lines never read, and every message written. -/
def sessionLoop (env : Env) : Nat → Client → List String →
    Client × List String × List Msg
  | 0, c, inputs => (c, inputs, [])
  | fuel + 1, c, inputs =>
    if c.connected then
      match inputs with
      | [] => (c.close, [], [])
      | line :: rest =>
        let r := dispatch env c line
        let r2 := sessionLoop env fuel r.1 rest
        (r2.1, r2.2.1, r.2 ++ r2.2.2)
    else (c.close, inputs, [])

theorem sessionLoop_succ (env : Env) (fuel : Nat) (c : Client) (inputs : List String) :
    sessionLoop env (fuel + 1) c inputs =
      if c.connected then
        match inputs with
        | [] => (c.close, [], [])
        | line :: rest =>
          let r := dispatch env c line
          let r2 := sessionLoop env fuel r.1 rest
          (r2.1, r2.2.1, r.2 ++ r2.2.2)
      else (c.close, inputs, []) := rfl

@[simp] theorem Client.close_tempUsername (c : Client) :
    c.close.tempUsername = c.tempUsername := by
  unfold Client.close; split <;> rfl

@[simp] theorem Client.close_tempPassword (c : Client) :
    c.close.tempPassword = c.tempPassword := by
  unfold Client.close; split <;> rfl

@[simp] theorem Client.close_tempEmail (c : Client) :
    c.close.tempEmail = c.tempEmail := by
  unfold Client.close; split <;> rfl

/-- A fully functional oracle environment for concrete runs: one active
player `alice` with id `p1` and hash `h1`; bcrypt verification succeeds
exactly on the matching password; hashing and persistence succeed. -/
def exEnv : Env :=
  { getPlayerByUsername := fun u =>
      if u = "alice" then
        some { id := "p1", username := "alice", email := "a@b.com",
               passwordHash := "h1", active := true }
      else none
    getPlayer := fun i =>
      if i = "p1" then
        some { id := "p1", username := "alice", email := "a@b.com",
               passwordHash := "h1", active := true }
      else none
    getPlayerByEmail := fun _ => none
    createPlayerOk := fun _ => true
    bcryptHash := fun pw => some ("hash-" ++ pw)
    bcryptVerify := fun h pw => h == "h1" && pw == "secret1"
    newPlayer := fun u e h =>
      { id := "p-" ++ u, username := u, email := e, passwordHash := h, active := true }
    getCharactersByPlayer := fun _ => some []
    raceByID := fun r => if r = "human" || r = "elf" || r = "dwarf" then some r else none
    classByID := fun k => if k = "warrior" || k = "mage" || k = "rogue" then some k else none
    createCharacterOk := fun _ _ _ _ => true
    processCommand := fun _ cmd => .ok ["echo: " ++ cmd] }

/-- A client in the middle of account creation: all three temp fields set. -/
def exAcctClient : Client :=
  { newClient "c1" with
      state := .confirmingPassword
      tempUsername := "alice"
      tempEmail := "a@b.com"
      tempPassword := "secret1" }

/-- Environment whose bcrypt hashing fails. -/
def exEnvHashFail : Env := { exEnv with bcryptHash := fun _ => none }

/-- Environment whose player persistence fails. -/
def exEnvPersistFail : Env := { exEnv with createPlayerOk := fun _ => false }

/-- C3 counterexample: when account creation fails (here: bcrypt hashing
fails), `createAccount` sends the generic line and closes, but does not
clear the temp fields — `tempUsername`, `tempEmail` and `tempPassword` all
survive, refuting the claim that they are empty on every outcome. -/
theorem createAccount_keeps_temp_on_failure :
    (createAccount exEnvHashFail exAcctClient).1.tempPassword = "secret1" ∧
    (createAccount exEnvHashFail exAcctClient).1.tempUsername = "alice" ∧
    (createAccount exEnvHashFail exAcctClient).1.tempEmail = "a@b.com" ∧
    (createAccount exEnvHashFail exAcctClient).1.connected = false := by
  decide

/-- C3 amended: the temp fields are cleared exactly on the success outcome
of account creation; on a hashing failure or a persistence failure the
connection is closed and all three temp fields are left unchanged. -/
theorem createAccount_temp_fields (env : Env) (c : Client) :
    (∀ h, env.bcryptHash c.tempPassword = some h →
      (env.createPlayerOk (env.newPlayer c.tempUsername c.tempEmail h) = true →
        (createAccount env c).1.tempUsername = "" ∧
        (createAccount env c).1.tempPassword = "" ∧
        (createAccount env c).1.tempEmail = "") ∧
      (env.createPlayerOk (env.newPlayer c.tempUsername c.tempEmail h) = false →
        (createAccount env c).1.connected = false ∧
        (createAccount env c).1.tempUsername = c.tempUsername ∧
        (createAccount env c).1.tempPassword = c.tempPassword ∧
        (createAccount env c).1.tempEmail = c.tempEmail)) ∧
    (env.bcryptHash c.tempPassword = none →
      (createAccount env c).1.connected = false ∧
      (createAccount env c).1.tempUsername = c.tempUsername ∧
      (createAccount env c).1.tempPassword = c.tempPassword ∧
      (createAccount env c).1.tempEmail = c.tempEmail) := by
  constructor
  · intro h hh
    constructor
    · intro hok
      simp [createAccount, hh, hok]
    · intro hfail
      simp [createAccount, hh, hfail]
  · intro hh
    simp [createAccount, hh]

theorem createAccount_temp_fields_witness :
    ((createAccount exEnv exAcctClient).1.tempUsername = "" ∧
     (createAccount exEnv exAcctClient).1.tempPassword = "" ∧
     (createAccount exEnv exAcctClient).1.tempEmail = "") ∧
    ((createAccount exEnvPersistFail exAcctClient).1.connected = false ∧
     (createAccount exEnvPersistFail exAcctClient).1.tempUsername = exAcctClient.tempUsername ∧
     (createAccount exEnvPersistFail exAcctClient).1.tempPassword = exAcctClient.tempPassword ∧
     (createAccount exEnvPersistFail exAcctClient).1.tempEmail = exAcctClient.tempEmail) ∧
    ((createAccount exEnvHashFail exAcctClient).1.connected = false ∧
     (createAccount exEnvHashFail exAcctClient).1.tempUsername = exAcctClient.tempUsername ∧
     (createAccount exEnvHashFail exAcctClient).1.tempPassword = exAcctClient.tempPassword ∧
     (createAccount exEnvHashFail exAcctClient).1.tempEmail = exAcctClient.tempEmail) :=
  ⟨((createAccount_temp_fields exEnv exAcctClient).1 "hash-secret1" (by decide)).1 (by decide),
   ((createAccount_temp_fields exEnvPersistFail exAcctClient).1 "hash-secret1"
      (by decide)).2 (by decide),
   (createAccount_temp_fields exEnvHashFail exAcctClient).2 (by decide)⟩

/-- Environment in which every player-store read fails. -/
def exEnvStoreFail : Env :=
  { exEnv with getPlayerByUsername := fun _ => none, getPlayer := fun _ => none }

/-- A freshly connected client (state `Connected`). -/
def exConnClient : Client := newClient "c2"

/-- C4 counterexample: when the username lookup fails in the `Connected`
state the driver does not close the connection — it treats the failure as
a new player and moves to `CreatingAccount`, with the connection still
live and no generic error line sent. -/
theorem handleLogin_lookup_failure_not_terminal :
    (handleLogin exEnvStoreFail exConnClient "alice").1.connected = true ∧
    (handleLogin exEnvStoreFail exConnClient "alice").1.state = .creatingAccount ∧
    (handleLogin exEnvStoreFail exConnClient "alice").2 =
      [Msg.send "New player! Creating account for: alice",
       Msg.send "Please enter your email address:",
       Msg.prompt "Email: "] := by
  decide

/-- C4 amended: a username-lookup failure in the `Connected` state is
treated as an unknown username — the driver stores the trimmed username,
announces account creation and transitions to `CreatingAccount` without
closing; a player-store failure in the `Authenticating` state, by
contrast, is surfaced as the generic line `Authentication failed.` and is
terminal (the connection is closed). -/
theorem store_failure_paths (env : Env) (c : Client) (input : String)
    (huser : trimSpace input ≠ "")
    (hlookup : env.getPlayerByUsername (trimSpace input) = none) :
    ((handleLogin env c input).1.state = .creatingAccount ∧
     (handleLogin env c input).1.connected = c.connected ∧
     (handleLogin env c input).1.tempUsername = trimSpace input) ∧
    (∀ c2 pw, trimSpace pw ≠ "" → c2.playerID ≠ "" →
      env.getPlayer c2.playerID = none →
      (handlePasswordAuth env c2 pw).2 = [Msg.send "Authentication failed."] ∧
      (handlePasswordAuth env c2 pw).1.connected = false) := by
  constructor
  · simp [handleLogin, huser, hlookup]
  · intro c2 pw hpw hpid hget
    simp [handlePasswordAuth, hpw, hpid, hget]

/-- Client that has passed the username step for player `p1`. -/
def exAuthClient : Client :=
  { newClient "c3" with state := .authenticating, playerID := "p1" }

theorem store_failure_paths_witness :
    ((handleLogin exEnvStoreFail exConnClient "alice").1.state = .creatingAccount ∧
     (handleLogin exEnvStoreFail exConnClient "alice").1.connected = exConnClient.connected ∧
     (handleLogin exEnvStoreFail exConnClient "alice").1.tempUsername = trimSpace "alice") ∧
    ((handlePasswordAuth exEnvStoreFail exAuthClient "pw1").2 =
        [Msg.send "Authentication failed."] ∧
     (handlePasswordAuth exEnvStoreFail exAuthClient "pw1").1.connected = false) := by
  obtain ⟨h1, h2⟩ :=
    store_failure_paths exEnvStoreFail exConnClient "alice" (by decide) (by decide)
  exact ⟨h1, h2 exAuthClient "pw1" (by decide) (by decide) (by decide)⟩

/-- C8: in the `Authenticating` state, a non-empty password that fails
bcrypt verification against the looked-up player's hash makes the driver
send exactly `Invalid password.` and close the connection, and the session
loop then stops without reading any further input: the remaining lines are
returned unconsumed, no prompt is ever written again, and the client ends
disconnected in state `Disconnecting`. -/
theorem invalid_password_closes_without_retry (env : Env) (c : Client) (pw : String)
    (rest : List String) (fuel : Nat) (p : PlayerRec)
    (hstate : c.state = .authenticating) (hconn : c.connected = true)
    (hpw : trimSpace pw ≠ "") (hpid : c.playerID ≠ "")
    (hget : env.getPlayer c.playerID = some p)
    (hverify : env.bcryptVerify p.passwordHash (trimSpace pw) = false) :
    sessionLoop env (fuel + 2) c (pw :: rest) =
      (c.close, rest, [Msg.send "Invalid password."]) ∧
    (c.close).connected = false ∧
    (c.close).state = .disconnecting := by
  have hd : dispatch env c pw = (c.close, [Msg.send "Invalid password."]) := by
    simp [dispatch, hstate, handlePasswordAuth, hpw, hpid, hget, hverify]
  refine ⟨?_, Client.close_connected c, Client.close_state c hconn⟩
  rw [show fuel + 2 = (fuel + 1) + 1 from rfl, sessionLoop_succ, if_pos hconn]
  simp only [hd]
  rw [sessionLoop_succ, if_neg (by rw [Client.close_connected]; simp)]
  simp [Client.close_of_closed _ (Client.close_connected c)]

theorem invalid_password_closes_without_retry_witness :
    sessionLoop exEnv 2 exAuthClient ["wrongpw", "again"] =
      (Client.close exAuthClient, ["again"], [Msg.send "Invalid password."]) ∧
    (Client.close exAuthClient).connected = false ∧
    (Client.close exAuthClient).state = .disconnecting :=
  invalid_password_closes_without_retry exEnv exAuthClient "wrongpw" ["again"] 0
    { id := "p1", username := "alice", email := "a@b.com",
      passwordHash := "h1", active := true }
    (by decide) (by decide) (by decide) (by decide) (by decide) (by decide)

/-- C9: in the `ConfirmingPassword` state, when the confirmation entry
does not match the pending password, only the pending password is cleared
and the flow restarts from the first password step: `tempUsername`,
`tempEmail`, `playerID`, `characterID` and the state are unchanged (the
state is still `ConfirmingPassword`), and the driver re-prompts for a new
password. -/
theorem confirm_mismatch_clears_only_pending (env : Env) (c : Client) (input : String)
    (hstate : c.state = .confirmingPassword)
    (hstored : c.tempPassword ≠ "")
    (hmis : c.tempPassword ≠ trimSpace input) :
    (handlePasswordConfirmation env c input).1.tempPassword = "" ∧
    (handlePasswordConfirmation env c input).1.tempUsername = c.tempUsername ∧
    (handlePasswordConfirmation env c input).1.tempEmail = c.tempEmail ∧
    (handlePasswordConfirmation env c input).1.playerID = c.playerID ∧
    (handlePasswordConfirmation env c input).1.characterID = c.characterID ∧
    (handlePasswordConfirmation env c input).1.state = .confirmingPassword ∧
    (handlePasswordConfirmation env c input).2 =
      [Msg.send "Passwords do not match.",
       Msg.send "Please choose a password (minimum 6 characters):"] := by
  rw [← hstate]
  simp [handlePasswordConfirmation, hstored, hmis]

theorem confirm_mismatch_clears_only_pending_witness :
    (handlePasswordConfirmation exEnv exAcctClient "other99").1.tempPassword = "" ∧
    (handlePasswordConfirmation exEnv exAcctClient "other99").1.tempUsername =
      exAcctClient.tempUsername ∧
    (handlePasswordConfirmation exEnv exAcctClient "other99").1.tempEmail =
      exAcctClient.tempEmail ∧
    (handlePasswordConfirmation exEnv exAcctClient "other99").1.playerID =
      exAcctClient.playerID ∧
    (handlePasswordConfirmation exEnv exAcctClient "other99").1.characterID =
      exAcctClient.characterID ∧
    (handlePasswordConfirmation exEnv exAcctClient "other99").1.state =
      .confirmingPassword ∧
    (handlePasswordConfirmation exEnv exAcctClient "other99").2 =
      [Msg.send "Passwords do not match.",
       Msg.send "Please choose a password (minimum 6 characters):"] :=
  confirm_mismatch_clears_only_pending exEnv exAcctClient "other99"
    (by decide) (by decide) (by decide)

/-- C10: both password handlers trim the input before any check, so two
password inputs with the same trimmed form are indistinguishable: they
yield the same client record (hence the same state transition and the same
stored pending password) and the same messages, in `handlePasswordAuth`
and in `handlePasswordConfirmation` alike. -/
theorem password_trim_equivalence (env : Env) (c : Client) (p1 p2 : String)
    (h : trimSpace p1 = trimSpace p2) :
    handlePasswordAuth env c p1 = handlePasswordAuth env c p2 ∧
    handlePasswordConfirmation env c p1 = handlePasswordConfirmation env c p2 := by
  constructor
  · unfold handlePasswordAuth
    rw [h]
  · unfold handlePasswordConfirmation
    rw [h]

theorem password_trim_equivalence_witness :
    handlePasswordAuth exEnv exAcctClient "  secret1  " =
      handlePasswordAuth exEnv exAcctClient "secret1" ∧
    handlePasswordConfirmation exEnv exAcctClient "  secret1  " =
      handlePasswordConfirmation exEnv exAcctClient "secret1" :=
  password_trim_equivalence exEnv exAcctClient "  secret1  " "secret1" (by decide)

end DungeoGo
